import Mathlib

/-!
Verification of the quotation pricing and approval workflow of the
pp-factory-erp application (src/factory_app.py). Spreadsheet rows are
modelled as Lean structures, numeric cells as rationals, text cells as
strings; the UI actions that read, mutate and write rows back are
modelled as pure functions on lists of rows.
-/

namespace FactoryApp

/-- A row of the QUOTE worksheet, with the columns the app writes in
new_row at Finalize Quote. Numeric cells are rationals, text cells are
strings. -/
structure Quotation where
  Doc_ID : String
  Customer : String
  Product : String
  Weight : ℚ
  Price : ℚ
  Status : String
  Date : String
  Auth_By : String
  Sales_Person : String
  Payment_Status : String
  Shipped_Status : String
  Input_Weight : ℚ
  Waste_Kg : ℚ
  Date_Paid : String
deriving Repr, DecidableEq

/-- Weight computation of the PP Sheet Calculator:
calc_wgt = (th * wd * lg * 0.91 * qty) / 1000000. -/
def calc_wgt (th wd lg qty : ℚ) : ℚ :=
  (th * wd * lg * 0.91 * qty) / 1000000

/-- Minimum rate per weight tier in the Finalize Quote path:
min_rate starts at 12.60, becomes 36.00 when calc_wgt < 10, else 26.00
when calc_wgt < 100. -/
def min_rate (w : ℚ) : ℚ :=
  if w < 10 then 36.00
  else if w < 100 then 26.00
  else 12.60

/-- Rate selection of the Miss PP chat path: price_rate starts at 12.60,
becomes 36.00 when weight < 10, else 26.00 when weight < 100. -/
def price_rate (weight : ℚ) : ℚ :=
  if weight < 10 then 36.00
  else if weight < 100 then 26.00
  else 12.60

/-- The price-floor check before Finalize Quote: starting from
can_save = true and auth_lvl = Standard, a proposed rate below the
minimum either flips auth_lvl to BOSS_BYPASS (boss mode) or clears
can_save. Returns the pair (can_save, auth_lvl). -/
def floor_check (w mat_rate : ℚ) (is_boss : Bool) : Bool × String :=
  if mat_rate < min_rate w then
    if is_boss then (true, "BOSS_BYPASS") else (false, "Standard")
  else (true, "Standard")

/-- The Finalize Quote button: when can_save holds, the new quotation row
is appended to the QUOTE table with status Pending Approval and Auth_By
set to the auth level from the floor check; otherwise the button is
disabled and nothing is persisted. -/
def finalize_quote (q_df : List Quotation) (doc cin prod : String)
    (w grand_total mat_rate : ℚ) (is_boss : Bool) (date sperson : String) :
    Option (List Quotation) :=
  let cs := floor_check w mat_rate is_boss
  let row : Quotation :=
    { Doc_ID := doc, Customer := cin, Product := prod,
      Weight := w, Price := grand_total, Status := "Pending Approval",
      Date := date, Auth_By := cs.2, Sales_Person := sperson,
      Payment_Status := "Unpaid", Shipped_Status := "No",
      Input_Weight := 0, Waste_Kg := 0, Date_Paid := "" }
  if cs.1 then some (q_df ++ [row]) else none

/-- The manager credential table of the Approvals section. -/
def MANAGERS : List (String × String) := [("Iris", "iris888"), ("Tomy", "tomy999")]

inductive ApproveError where
  | unauthorized
  | invalidTransition
deriving Repr, DecidableEq

/-- The Approvals section: only rows with status Pending Approval are
listed, and the Approve button exists only when the typed code is one of
the manager passwords or boss mode is on; pressing it sets the status to
Approved. Any other state never reaches the button. -/
def approve (q : Quotation) (pwd : String) (is_boss : Bool) :
    Except ApproveError Quotation :=
  if q.Status = "Pending Approval" then
    if (MANAGERS.map Prod.snd).contains pwd || is_boss then
      .ok { q with Status := "Approved" }
    else
      .error .unauthorized
  else
    .error .invalidTransition

/-- The stored record after an approval attempt: updated on success,
untouched on failure (no save happens on a failed attempt). -/
def approve_post (q : Quotation) (pwd : String) (is_boss : Bool) : Quotation :=
  match approve q pwd is_boss with
  | .ok q2 => q2
  | .error _ => q

/-- A creation timestamp, to the second. -/
structure Timestamp where
  year : Nat
  month : Nat
  day : Nat
  hour : Nat
  minute : Nat
  second : Nat
deriving Repr, DecidableEq

/-- Two-digit zero-padded rendering, as the strftime codes %y %m %d %H %M
produce. -/
def pad2 (n : Nat) : String :=
  if n < 10 then "0" ++ toString n else toString n

/-- Doc_ID generation at quotation creation: QT- followed by
strftime %y%m%d-%H%M of the current time, minute granularity. -/
def doc_id (t : Timestamp) : String :=
  "QT-" ++ pad2 (t.year % 100) ++ pad2 t.month ++ pad2 t.day ++ "-" ++
    pad2 t.hour ++ pad2 t.minute

/-- A row of the INVENTORY worksheet. -/
structure InvRow where
  Product : String
  Current_Weight_kg : ℚ
  Last_Updated : String
deriving Repr, DecidableEq

inductive InvOp where
  | ADD
  | SUBTRACT
deriving Repr, DecidableEq

/-- First-match stock lookup, as the pandas row filter plus index 0 does. -/
def inv_lookup : List InvRow → String → Option ℚ
  | [], _ => none
  | r :: rest, n =>
    if r.Product = n then some r.Current_Weight_kg else inv_lookup rest n

/-- update_inventory: the first row whose Product matches is updated
(ADD always succeeds; SUBTRACT fails without writing when stock is short),
a missing product is appended for ADD and reported not found otherwise.
Returns (success, message, table). The source interpolates the current
stock figure into the short-stock message; the message is abbreviated
here. -/
def update_inventory (rows : List InvRow) (product_name : String)
    (weight_change : ℚ) (operation : InvOp) (now : String) :
    Bool × String × List InvRow :=
  match rows with
  | [] =>
    match operation with
    | .ADD =>
      let fresh : InvRow :=
        { Product := product_name, Current_Weight_kg := weight_change,
          Last_Updated := now }
      (true, "Updated", [fresh])
    | .SUBTRACT => (false, "Product not found.", [])
  | r :: rest =>
    if r.Product = product_name then
      match operation with
      | .ADD =>
        let r2 : InvRow :=
          { r with
            Current_Weight_kg := r.Current_Weight_kg + weight_change,
            Last_Updated := now }
        (true, "Updated", r2 :: rest)
      | .SUBTRACT =>
        if r.Current_Weight_kg < weight_change then
          (false, "Not enough stock", r :: rest)
        else
          let r2 : InvRow :=
            { r with
              Current_Weight_kg := r.Current_Weight_kg - weight_change,
              Last_Updated := now }
          (true, "Updated", r2 :: rest)
    else
      let res := update_inventory rest product_name weight_change operation now
      (res.1, res.2.1, r :: res.2.2)

/-- waste_pct = waste / real_input * 100 when real_input > 0, else 0. -/
def waste_pct (waste real_input : ℚ) : ℚ :=
  if 0 < real_input then waste / real_input * 100 else 0

inductive ProdError where
  | insufficientInput
  | inventoryFailed
deriving Repr, DecidableEq

/-- The Finish and Calculate Waste form on an In Progress row: requires
real_input at least the target weight, computes waste and waste_pct,
triggers the high-waste alert exactly when waste_pct exceeds 10, books
the produced weight into inventory with ADD, and on inventory success
sets the row to Completed recording Input_Weight and Waste_Kg. The
notify_ok argument models whether the alert email succeeds; the source
discards the return value of send_waste_alert, so it is unused here.
Returns the updated row, the updated inventory, and the alert flag. -/
def finish_production (q : Quotation) (real_input : ℚ) (inv : List InvRow)
    (now : String) (notify_ok : Bool) :
    Except ProdError (Quotation × List InvRow × Bool) :=
  if q.Weight ≤ real_input then
    let waste := real_input - q.Weight
    let pct := waste_pct waste real_input
    let alerted := decide (10 < pct)
    let res := update_inventory inv q.Product q.Weight .ADD now
    let q2 : Quotation :=
      { q with
        Status := "Completed", Input_Weight := real_input,
        Waste_Kg := waste }
    if res.1 then
      .ok (q2, res.2.2, alerted)
    else
      .error .inventoryFailed
  else
    .error .insufficientInput

/-- The Confirm Paid button: the first row whose Doc_ID matches gets
Payment_Status set to Paid and Date_Paid set to the current date; every
other row of the table is written back as-is. -/
def confirm_paid : List Quotation → String → String → List Quotation
  | [], _, _ => []
  | q :: rest, d, today =>
    if q.Doc_ID = d then
      { q with Payment_Status := "Paid", Date_Paid := today } :: rest
    else
      q :: confirm_paid rest d today

/-- A concrete pending quotation, used to instantiate the theorems below. -/
def qPending : Quotation :=
  { Doc_ID := "QT-261012-1030", Customer := "Cash", Product := "PP Sheet",
    Weight := 266.175, Price := 3353.805, Status := "Pending Approval",
    Date := "2026-10-12", Auth_By := "Standard", Sales_Person := "Sujita",
    Payment_Status := "Unpaid", Shipped_Status := "No",
    Input_Weight := 0, Waste_Kg := 0, Date_Paid := "" }

/-- A concrete quotation in production, target weight 100 kg. -/
def qInProgress : Quotation :=
  { qPending with Status := "In Progress", Weight := 100 }

/-- Helper: the ADD operation of update_inventory always reports
success, for every inventory table. -/
theorem update_inventory_add_ok (rows : List InvRow) (p : String) (w : ℚ)
    (now : String) : (update_inventory rows p w .ADD now).1 = true := by
  induction rows with
  | nil => rfl
  | cons r rest ih =>
    by_cases h : r.Product = p
    · simp [update_inventory, h]
    · simp [update_inventory, h, ih]

/-- C1: the computed weight is thickness times width times length times
0.91 times quantity over 1000000; for thickness 0.5, width 650,
length 900 and quantity 1000 the weight is 266.175 kg, the tier minimum
rate there is 12.60, and the total at that rate is exactly
266.175 times 12.60, i.e. 3353.805. -/
theorem calc_wgt_formula_and_example :
    (∀ th wd lg qty : ℚ,
      calc_wgt th wd lg qty = th * wd * lg * (91 / 100) * qty / 1000000) ∧
    calc_wgt 0.5 650 900 1000 = 266.175 ∧
    min_rate (calc_wgt 0.5 650 900 1000) = 12.60 ∧
    calc_wgt 0.5 650 900 1000 * min_rate (calc_wgt 0.5 650 900 1000) =
      266.175 * 12.60 ∧
    (266.175 : ℚ) * 12.60 = 3353.805 := by
  refine ⟨fun th wd lg qty => ?_, ?_, ?_, ?_, ?_⟩ <;>
    norm_num [calc_wgt, min_rate]

/-- C2: the tier function returns 36.00 below 10 kg, 26.00 from 10 up to
100 kg, 12.60 from 100 kg on (thresholds in ascending order, first match
wins, and the Miss PP price_rate agrees with it); it is monotonically
non-increasing in the weight, and the boundary samples 9.99, 10.01 and
100.01 give 36.00, 26.00 and 12.60. -/
theorem min_rate_tiers_monotone :
    (∀ w : ℚ, (w < 10 → min_rate w = 36.00) ∧
      (10 ≤ w → w < 100 → min_rate w = 26.00) ∧
      (100 ≤ w → min_rate w = 12.60) ∧
      price_rate w = min_rate w) ∧
    (∀ w1 w2 : ℚ, w1 ≤ w2 → min_rate w2 ≤ min_rate w1) ∧
    min_rate 9.99 = 36.00 ∧ min_rate 10.01 = 26.00 ∧
    min_rate 100.01 = 12.60 := by
  refine ⟨fun w => ⟨fun h => ?_, fun h1 h2 => ?_, fun h => ?_, rfl⟩,
    fun w1 w2 h => ?_, ?_, ?_, ?_⟩
  · simp [min_rate, h]
  · simp [min_rate, h2, not_lt.2 h1]
  · simp [min_rate, not_lt.2 h, not_lt.2 (by linarith : (10:ℚ) ≤ w)]
  · unfold min_rate
    split_ifs <;> norm_num <;> linarith
  · norm_num [min_rate]
  · norm_num [min_rate]
  · norm_num [min_rate]

/-- Witness for C2 at concrete weights. -/
theorem min_rate_tiers_monotone_witness :
    min_rate 9.99 = 36.00 ∧ min_rate 50 = 26.00 ∧
    min_rate 266.175 = 12.60 ∧ min_rate 266.175 ≤ min_rate 9.99 :=
  ⟨(min_rate_tiers_monotone.1 9.99).1 (by norm_num),
   (min_rate_tiers_monotone.1 50).2.1 (by norm_num) (by norm_num),
   (min_rate_tiers_monotone.1 266.175).2.2.1 (by norm_num),
   min_rate_tiers_monotone.2.1 9.99 266.175 (by norm_num)⟩

/-- C3: when the proposed rate is below the tier minimum, Finalize Quote
persists nothing without boss mode; with boss mode the row is saved and
its Auth_By field records BOSS_BYPASS as the audit marker of the
administrative override. -/
theorem finalize_quote_price_floor (q_df : List Quotation)
    (doc cin prod : String) (w gt mr : ℚ) (date sp : String)
    (h : mr < min_rate w) :
    finalize_quote q_df doc cin prod w gt mr false date sp = none ∧
    finalize_quote q_df doc cin prod w gt mr true date sp =
      some (q_df ++
        [{ Doc_ID := doc, Customer := cin, Product := prod,
           Weight := w, Price := gt, Status := "Pending Approval",
           Date := date, Auth_By := "BOSS_BYPASS", Sales_Person := sp,
           Payment_Status := "Unpaid", Shipped_Status := "No",
           Input_Weight := 0, Waste_Kg := 0, Date_Paid := "" }]) := by
  constructor <;> simp [finalize_quote, floor_check, h]

/-- Witness for C3: rate 10 against the 100 kg tier minimum 12.60. -/
theorem finalize_quote_price_floor_witness :
    (10 : ℚ) < min_rate 266.175 ∧
    finalize_quote [] "QT-261012-1030" "Cash" "PP Sheet" 266.175 2661.75 10
      false "2026-10-12" "Sujita" = none ∧
    finalize_quote [] "QT-261012-1030" "Cash" "PP Sheet" 266.175 2661.75 10
      true "2026-10-12" "Sujita" =
      some [{ Doc_ID := "QT-261012-1030", Customer := "Cash",
              Product := "PP Sheet", Weight := 266.175, Price := 2661.75,
              Status := "Pending Approval", Date := "2026-10-12",
              Auth_By := "BOSS_BYPASS", Sales_Person := "Sujita",
              Payment_Status := "Unpaid", Shipped_Status := "No",
              Input_Weight := 0, Waste_Kg := 0, Date_Paid := "" }] := by
  have h : (10 : ℚ) < min_rate 266.175 := by norm_num [min_rate]
  have h2 := finalize_quote_price_floor [] "QT-261012-1030" "Cash" "PP Sheet"
    266.175 2661.75 10 "2026-10-12" "Sujita" h
  exact ⟨h, h2.1, by simpa using h2.2⟩

/-- C4: on a Pending Approval quotation, the password wrong is rejected
as unauthorized and the stored record is unchanged, while the manager
password iris888 succeeds and the status becomes Approved. -/
theorem approve_iris_vs_wrong (q : Quotation)
    (h : q.Status = "Pending Approval") :
    approve q "wrong" false = .error .unauthorized ∧
    approve_post q "wrong" false = q ∧
    approve q "iris888" false = .ok { q with Status := "Approved" } ∧
    (approve_post q "iris888" false).Status = "Approved" := by
  have e1 : approve q "wrong" false = .error .unauthorized := by
    unfold approve
    rw [if_pos h, if_neg (by decide)]
  have e2 : approve q "iris888" false = .ok { q with Status := "Approved" } := by
    unfold approve
    rw [if_pos h, if_pos (by decide)]
  refine ⟨e1, ?_, e2, ?_⟩
  · simp [approve_post, e1]
  · simp [approve_post, e2]

/-- Witness for C4 at a concrete pending quotation. -/
theorem approve_iris_vs_wrong_witness :
    approve qPending "wrong" false = .error .unauthorized ∧
    approve_post qPending "wrong" false = qPending ∧
    approve qPending "iris888" false =
      .ok { qPending with Status := "Approved" } :=
  ⟨(approve_iris_vs_wrong qPending rfl).1,
   (approve_iris_vs_wrong qPending rfl).2.1,
   (approve_iris_vs_wrong qPending rfl).2.2.1⟩

/-- C5: approving a quotation that is not in Pending Approval fails as an
invalid transition for every credential, boss mode included, and the
stored record is unchanged. -/
theorem approve_non_pending (q : Quotation) (pwd : String) (b : Bool)
    (h : q.Status ≠ "Pending Approval") :
    approve q pwd b = .error .invalidTransition ∧
    approve_post q pwd b = q := by
  constructor <;> simp [approve, approve_post, h]

/-- Witness for C5: an already approved quotation resists even the boss
credential. -/
theorem approve_non_pending_witness :
    approve { qPending with Status := "Approved" } "iris888" true =
      .error .invalidTransition ∧
    approve_post { qPending with Status := "Approved" } "iris888" true =
      { qPending with Status := "Approved" } :=
  approve_non_pending { qPending with Status := "Approved" } "iris888" true
    (by simp [qPending])

/-- C6: completing production on an In Progress quotation fails without
writing when the resin input is below the target weight; with input at
least the target it always succeeds (the inventory ADD booking cannot
fail), records Input_Weight and Waste_Kg = input minus target, and raises
the alert flag exactly when waste_pct exceeds 10; the outcome never
depends on whether the alert email succeeds. -/
theorem finish_production_spec (q : Quotation) (real_input : ℚ)
    (hst : q.Status = "In Progress") :
    (real_input < q.Weight → ∀ inv now nok,
      finish_production q real_input inv now nok =
        .error .insufficientInput) ∧
    (q.Weight ≤ real_input → ∀ inv now nok,
      finish_production q real_input inv now nok =
        .ok ({ q with
               Status := "Completed", Input_Weight := real_input,
               Waste_Kg := real_input - q.Weight },
             (update_inventory inv q.Product q.Weight .ADD now).2.2,
             decide (10 < waste_pct (real_input - q.Weight) real_input))) ∧
    (∀ inv now n1 n2,
      finish_production q real_input inv now n1 =
        finish_production q real_input inv now n2) := by
  refine ⟨fun h inv now nok => ?_, fun h inv now nok => ?_,
    fun inv now n1 n2 => rfl⟩
  · simp [finish_production, not_le.2 h]
  · simp [finish_production, h, update_inventory_add_ok inv q.Product q.Weight now]

/-- Witness for C6: target 100 kg; input 110 gives waste 10 and no alert,
input 120 gives waste 20 and the alert, input 90 is refused. -/
theorem finish_production_spec_witness :
    finish_production qInProgress 110 [] "2026-10-12" true =
      .ok ({ qInProgress with
             Status := "Completed", Input_Weight := 110, Waste_Kg := 10 },
           [{ Product := "PP Sheet", Current_Weight_kg := 100,
              Last_Updated := "2026-10-12" }], false) ∧
    finish_production qInProgress 120 [] "2026-10-12" false =
      .ok ({ qInProgress with
             Status := "Completed", Input_Weight := 120, Waste_Kg := 20 },
           [{ Product := "PP Sheet", Current_Weight_kg := 100,
              Last_Updated := "2026-10-12" }], true) ∧
    finish_production qInProgress 90 [] "2026-10-12" true =
      .error .insufficientInput := by
  have h110 := (finish_production_spec qInProgress 110 rfl).2.1
    (by norm_num [qInProgress, qPending]) [] "2026-10-12" true
  have h120 := (finish_production_spec qInProgress 120 rfl).2.1
    (by norm_num [qInProgress, qPending]) [] "2026-10-12" false
  have h90 := (finish_production_spec qInProgress 90 rfl).1
    (by norm_num [qInProgress, qPending]) [] "2026-10-12" true
  refine ⟨?_, ?_, h90⟩
  · rw [h110]
    norm_num [qInProgress, qPending, waste_pct, update_inventory]
  · rw [h120]
    norm_num [qInProgress, qPending, waste_pct, update_inventory]

/-- C7: the Doc_ID scheme is minute-granular, so two quotations created
within the same minute receive the same document ID — at 2026-10-12
10:30, creations at second 5 and second 42 both yield QT-261012-1030,
although the timestamps differ. The uniqueness the spec requires does
not hold in the code. -/
theorem docId_collision :
    doc_id { year := 2026, month := 10, day := 12,
             hour := 10, minute := 30, second := 5 } =
      doc_id { year := 2026, month := 10, day := 12,
               hour := 10, minute := 30, second := 42 } ∧
    doc_id { year := 2026, month := 10, day := 12,
             hour := 10, minute := 30, second := 5 } = "QT-261012-1030" ∧
    ({ year := 2026, month := 10, day := 12,
       hour := 10, minute := 30, second := 5 } : Timestamp) ≠
      { year := 2026, month := 10, day := 12,
        hour := 10, minute := 30, second := 42 } := by
  refine ⟨rfl, rfl, by decide⟩

/-- C8 counterexample: the pricing computation never rejects a
non-positive dimension — at thickness 0 it computes the weight 0 and at
thickness -1 the weight -532.35, and the floor check still assigns the
below-10 kg tier; there is no InvalidDimension outcome anywhere in the
code. -/
theorem calc_wgt_no_rejection :
    calc_wgt 0 650 900 1000 = 0 ∧
    calc_wgt (-1) 650 900 1000 = -532.35 ∧
    min_rate (calc_wgt 0 650 900 1000) = 36.00 := by
  refine ⟨?_, ?_, ?_⟩ <;> norm_num [calc_wgt, min_rate]

/-- C8 amended: the calculator is total and never raises an error; with
a non-positive thickness and non-negative width, length and quantity the
computed weight is simply non-positive (the sole guard against bad
dimensions lives in the UI widgets, with their minimum-value settings,
not in the calculation). -/
theorem calc_wgt_total_nonpositive (th wd lg qty : ℚ)
    (hth : th ≤ 0) (hwd : 0 ≤ wd) (hlg : 0 ≤ lg) (hq : 0 ≤ qty) :
    calc_wgt th wd lg qty ≤ 0 := by
  unfold calc_wgt
  have hprod : 0 ≤ wd * lg * ((91 : ℚ) / 100) * qty :=
    mul_nonneg (mul_nonneg (mul_nonneg hwd hlg) (by norm_num)) hq
  have hmul : th * (wd * lg * ((91 : ℚ) / 100) * qty) ≤ 0 :=
    mul_nonpos_of_nonpos_of_nonneg hth hprod
  have heq : th * wd * lg * (0.91 : ℚ) * qty =
      th * (wd * lg * ((91 : ℚ) / 100) * qty) := by
    norm_num
    ring
  rw [heq]
  exact div_nonpos_of_nonpos_of_nonneg hmul (by norm_num)

/-- Witness for C8 amended at thickness 0. -/
theorem calc_wgt_total_nonpositive_witness :
    calc_wgt 0 650 900 1000 ≤ 0 :=
  calc_wgt_total_nonpositive 0 650 900 1000 (by norm_num) (by norm_num)
    (by norm_num) (by norm_num)

/-- C9: subtracting more than the current stock of a product fails and
leaves the inventory table unchanged, and subtracting from a product
that is not in the table reports it not found and likewise writes
nothing. -/
theorem update_inventory_subtract_guard (rows : List InvRow)
    (name : String) (s : ℚ) (now : String) :
    (∀ c : ℚ, inv_lookup rows name = some c → c < s →
      update_inventory rows name s .SUBTRACT now =
        (false, "Not enough stock", rows)) ∧
    (inv_lookup rows name = none →
      update_inventory rows name s .SUBTRACT now =
        (false, "Product not found.", rows)) := by
  induction rows with
  | nil =>
    exact ⟨fun c hc => by simp [inv_lookup] at hc, fun _ => rfl⟩
  | cons r rest ih =>
    constructor
    · intro c hc hlt
      by_cases h : r.Product = name
      · rw [inv_lookup, if_pos h] at hc
        rw [Option.some_inj] at hc
        subst hc
        simp [update_inventory, h, hlt]
      · rw [inv_lookup, if_neg h] at hc
        have hr := ih.1 c hc hlt
        simp [update_inventory, h, hr]
    · intro hc
      by_cases h : r.Product = name
      · rw [inv_lookup, if_pos h] at hc
        exact absurd hc (by simp)
      · rw [inv_lookup, if_neg h] at hc
        have hr := ih.2 hc
        simp [update_inventory, h, hr]

/-- Witness for C9: stock 5 cannot cover a subtraction of 10, and an
absent product is reported not found; the table is unchanged both
times. -/
theorem update_inventory_subtract_guard_witness :
    update_inventory
      [{ Product := "PP Sheet", Current_Weight_kg := 5,
         Last_Updated := "2026-10-11" }] "PP Sheet" 10 .SUBTRACT
      "2026-10-12" =
      (false, "Not enough stock",
        [{ Product := "PP Sheet", Current_Weight_kg := 5,
           Last_Updated := "2026-10-11" }]) ∧
    update_inventory
      [{ Product := "PP Sheet", Current_Weight_kg := 5,
         Last_Updated := "2026-10-11" }] "PE Sheet" 10 .SUBTRACT
      "2026-10-12" =
      (false, "Product not found.",
        [{ Product := "PP Sheet", Current_Weight_kg := 5,
           Last_Updated := "2026-10-11" }]) := by
  constructor
  · exact (update_inventory_subtract_guard
      [{ Product := "PP Sheet", Current_Weight_kg := 5,
         Last_Updated := "2026-10-11" }] "PP Sheet" 10 "2026-10-12").1 5
      (by norm_num [inv_lookup]) (by norm_num)
  · exact (update_inventory_subtract_guard
      [{ Product := "PP Sheet", Current_Weight_kg := 5,
         Last_Updated := "2026-10-11" }] "PE Sheet" 10 "2026-10-12").2
      (by decide)

/-- C10: Confirm Paid relates the table before and after pointwise — the
tables have the same length and, row by row, each written-back row is
either literally the old row or, when its Doc_ID is the targeted one,
the old row with only Payment_Status set to Paid and Date_Paid set to
the current date; no other field and no other row changes. -/
theorem confirm_paid_frame (qs : List Quotation) (d today : String) :
    List.Forall₂ (fun q q2 => q2 = q ∨
      (q.Doc_ID = d ∧
        q2 = { q with Payment_Status := "Paid", Date_Paid := today }))
      qs (confirm_paid qs d today) := by
  induction qs with
  | nil => exact List.Forall₂.nil
  | cons q rest ih =>
    by_cases h : q.Doc_ID = d
    · rw [confirm_paid, if_pos h]
      exact List.Forall₂.cons (Or.inr ⟨h, rfl⟩)
        (List.forall₂_same.2 fun x _ => Or.inl rfl)
    · rw [confirm_paid, if_neg h]
      exact List.Forall₂.cons (Or.inl rfl) ih

end FactoryApp
